import Mathlib

/- Shallow embedding of the Polymarket NBA trading bot (src/main.py).
   Prices and dollar amounts are modelled as rationals, Python's
   datetime.now() is modelled by an explicit clock argument, and the
   three stateful classes (TradingStrategy, Portfolio, TradeSimulator)
   become pure functions with explicit state passing.  The theorems at
   the end check the specification's claims C1 .. C10. -/

set_option maxHeartbeats 1000000

-- ## Python string primitives (ASCII model of str.lower / str.upper / `in`)

def pyLower (s : String) : String := String.mk (s.data.map Char.toLower)

def pyUpper (s : String) : String := String.mk (s.data.map Char.toUpper)

def infixOf (needle : List Char) : List Char → Bool
  | [] => needle.isEmpty
  | c :: cs => needle.isPrefixOf (c :: cs) || infixOf needle cs

/- Python's substring test `needle in hay`. -/
def pyIn (needle hay : String) : Bool := infixOf needle.data hay.data

/- Python's `a or b` on strings: the empty string is falsy. -/
def pyOrStr (a b : String) : String := if a == "" then b else a

-- ## Decimal rendering (model of Python %d / f-string formatting)

def toDigitsRevAux : ℕ → ℕ → List ℕ
  | 0, _ => []
  | fuel + 1, n => if n < 10 then [n] else n % 10 :: toDigitsRevAux fuel (n / 10)

/- Little-endian decimal digits of a natural number. -/
def toDigitsRev (n : ℕ) : List ℕ := toDigitsRevAux (n + 1) n

def ofDigitsRev : List ℕ → ℕ
  | [] => 0
  | d :: ds => d + 10 * ofDigitsRev ds

def digitChar (d : ℕ) : Char := Char.ofNat (48 + d)

/- Big-endian decimal character rendering of a natural number. -/
def natChars (n : ℕ) : List Char := (toDigitsRev n).reverse.map digitChar

/- Zero-pad on the left to width 4, as Python's %04d does. -/
def pad4 (s : List Char) : List Char := List.replicate (4 - s.length) '0' ++ s

/- Portfolio._generate_id's rendering of the counter: f"pos_{n:04d}". -/
def formatId (n : ℕ) : String := "pos_" ++ String.mk (pad4 (natChars n))

-- ## Decoding lemmas: formatId is injective

def decAux : ℕ → List Char → ℕ
  | acc, [] => acc
  | acc, c :: cs => decAux (acc * 10 + (c.toNat - 48)) cs

def decodeId (s : String) : ℕ := decAux 0 (s.data.drop 4)

theorem lt_ten_pow_succ (n : ℕ) : n < 10 ^ (n + 1) :=
  lt_of_lt_of_le (Nat.lt_two_pow n)
    (le_of_lt (lt_of_le_of_lt (Nat.pow_le_pow_left (by norm_num) n)
      (Nat.pow_lt_pow_right (by norm_num) (Nat.lt_succ_self n))))

theorem ofDigitsRev_toDigitsRevAux (f : ℕ) : ∀ n : ℕ, n < 10 ^ f →
    ofDigitsRev (toDigitsRevAux f n) = n := by
  induction f with
  | zero =>
    intro n hn
    simp only [pow_zero, Nat.lt_one_iff] at hn
    simp [hn, toDigitsRevAux, ofDigitsRev]
  | succ f ih =>
    intro n hn
    by_cases h10 : n < 10
    · simp [toDigitsRevAux, h10, ofDigitsRev]
    · have hdiv : n / 10 < 10 ^ f := by
        rw [pow_succ] at hn
        exact (Nat.div_lt_iff_lt_mul (by norm_num)).mpr hn
      simp only [toDigitsRevAux, h10, if_false, ofDigitsRev, ih _ hdiv]
      omega

theorem ofDigitsRev_toDigitsRev (n : ℕ) : ofDigitsRev (toDigitsRev n) = n :=
  ofDigitsRev_toDigitsRevAux (n + 1) n (lt_ten_pow_succ n)

theorem toDigitsRevAux_lt (f : ℕ) : ∀ n d : ℕ, d ∈ toDigitsRevAux f n → d < 10 := by
  induction f with
  | zero => intro n d hd; simp [toDigitsRevAux] at hd
  | succ f ih =>
    intro n d hd
    by_cases h10 : n < 10
    · simp only [toDigitsRevAux, h10, if_true, List.mem_singleton] at hd
      omega
    · simp only [toDigitsRevAux, h10, if_false, List.mem_cons] at hd
      rcases hd with hd | hd
      · omega
      · exact ih _ _ hd

theorem toDigitsRev_lt (n d : ℕ) (hd : d ∈ toDigitsRev n) : d < 10 :=
  toDigitsRevAux_lt (n + 1) n d hd

theorem digitChar_toNat (d : ℕ) (h : d < 10) : (digitChar d).toNat = 48 + d := by
  interval_cases d <;> decide

theorem decAux_append (l : List Char) : ∀ (acc : ℕ) (c : Char),
    decAux acc (l ++ [c]) = (decAux acc l) * 10 + (c.toNat - 48) := by
  induction l with
  | nil => intro acc c; rfl
  | cons x xs ih =>
    intro acc c
    rw [List.cons_append]
    show decAux (acc * 10 + (x.toNat - 48)) (xs ++ [c]) =
      decAux acc (x :: xs) * 10 + (c.toNat - 48)
    rw [ih]
    rfl

theorem decAux_digits (ds : List ℕ) : ∀ acc : ℕ, (∀ d ∈ ds, d < 10) →
    decAux acc (ds.reverse.map digitChar) = acc * 10 ^ ds.length + ofDigitsRev ds := by
  induction ds with
  | nil =>
    intro acc _
    show acc = acc * 10 ^ 0 + ofDigitsRev []
    simp [ofDigitsRev]
  | cons d ds ih =>
    intro acc hlt
    have hd : d < 10 := hlt d (List.mem_cons_self d ds)
    have hds : ∀ x ∈ ds, x < 10 := fun x hx => hlt x (List.mem_cons_of_mem d hx)
    rw [List.reverse_cons, List.map_append, List.map_cons, List.map_nil]
    rw [decAux_append, ih acc hds, digitChar_toNat d hd]
    simp only [ofDigitsRev, List.length_cons, pow_succ]
    ring_nf
    omega

theorem decAux_zeros (k : ℕ) (s : List Char) :
    decAux 0 (List.replicate k '0' ++ s) = decAux 0 s := by
  induction k with
  | zero => rfl
  | succ k ih =>
    rw [List.replicate_succ, List.cons_append]
    exact ih

theorem decodeId_formatId (n : ℕ) : decodeId (formatId n) = n := by
  have hdata : (formatId n).data = 'p' :: 'o' :: 's' :: '_' :: pad4 (natChars n) := rfl
  have hdrop : (formatId n).data.drop 4 = pad4 (natChars n) := by rw [hdata]; rfl
  unfold decodeId
  rw [hdrop]
  unfold pad4 natChars
  rw [decAux_zeros, decAux_digits _ 0 (fun d hd => toDigitsRev_lt n d hd)]
  rw [ofDigitsRev_toDigitsRev]
  ring

theorem formatId_inj {a b : ℕ} (h : formatId a = formatId b) : a = b := by
  have := congrArg decodeId h
  rwa [decodeId_formatId, decodeId_formatId] at this

-- ## Percent formatting (model of Python's f"{x:.1%}" and f"{x:.0%}")

def roundHalfEven (q : ℚ) : ℤ :=
  let f := ⌊q⌋
  if q - f < 1/2 then f
  else if (f : ℚ) + 1/2 < q then f + 1
  else if f % 2 = 0 then f else f + 1

def fmtPct1 (q : ℚ) : String :=
  let m := roundHalfEven (q * 1000)
  let s := natChars m.natAbs
  let s2 := if s.length < 2 then List.replicate (2 - s.length) '0' ++ s else s
  String.mk ((if m < 0 then ['-'] else []) ++ s2.take (s2.length - 1)
    ++ '.' :: s2.drop (s2.length - 1) ++ ['%'])

def fmtPct0 (q : ℚ) : String :=
  let m := roundHalfEven (q * 100)
  String.mk ((if m < 0 then ['-'] else []) ++ natChars m.natAbs ++ ['%'])

-- ## Data models (main.py lines 74 - 161)

structure MarketOutcome where
  token_id : String
  outcome : String
  price : ℚ
  deriving DecidableEq

structure Market where
  id : String
  condition_id : String
  question : String
  slug : String
  outcomes : List MarketOutcome
  end_date : Option String
  closed : Bool
  resolved : Bool
  volume : ℚ
  liquidity : ℚ
  deriving DecidableEq

def Market.yes_price (m : Market) : ℚ :=
  match m.outcomes.find? (fun o => pyLower o.outcome == "yes") with
  | some o => o.price
  | none => 0

def Market.no_price (m : Market) : ℚ :=
  match m.outcomes.find? (fun o => pyLower o.outcome == "no") with
  | some o => o.price
  | none => 0

def Market.best_outcome (m : Market) : String × ℚ :=
  if m.yes_price ≥ m.no_price then ("YES", m.yes_price) else ("NO", m.no_price)

inductive PositionStatus where
  | OPEN
  | CLOSED
  deriving DecidableEq

inductive TradeResult where
  | WIN
  | LOSS
  | STOPPED
  | PENDING
  deriving DecidableEq

structure Position where
  id : String
  market_id : String
  market_title : String
  side : String
  entry_price : ℚ
  entry_time : ℕ
  size_usd : ℚ
  shares : ℚ
  status : PositionStatus
  exit_price : Option ℚ
  exit_time : Option ℕ
  pnl_usd : Option ℚ
  pnl_percent : Option ℚ
  result : TradeResult
  deriving DecidableEq

structure TradeSignal where
  market : Market
  action : String
  side : String
  price : ℚ
  reason : String
  timestamp : ℕ
  deriving DecidableEq

-- ## Trading strategy (main.py lines 317 - 344)

structure TradingStrategy where
  entry_threshold : ℚ
  stop_loss : ℚ
  take_profit : ℚ
  position_size : ℚ
  deriving DecidableEq

/- Default configuration: ENTRY_THRESHOLD 0.80, STOP_LOSS 0.60, TAKE_PROFIT 1.0,
   POSITION_SIZE 100.0. -/
def defaultStrategy : TradingStrategy := ⟨4/5, 3/5, 1, 100⟩

def TradingStrategy.should_enter (self : TradingStrategy) (market : Market)
    (existing_position : Bool) (now : ℕ) : Option TradeSignal :=
  if existing_position || market.closed || market.resolved then none
  else
    let best := market.best_outcome
    if best.2 ≥ self.entry_threshold then
      some { market := market, action := "BUY", side := best.1, price := best.2,
             reason := "Entry signal: " ++ best.1 ++ " at " ++ fmtPct1 best.2 ++ " >= "
               ++ fmtPct0 self.entry_threshold ++ " threshold",
             timestamp := now }
    else none

def TradingStrategy.should_exit (self : TradingStrategy) (market : Market)
    (entry_price : ℚ) (entry_side : String) (now : ℕ) : Option TradeSignal :=
  let current_price := if entry_side == "YES" then market.yes_price else market.no_price
  if market.resolved || market.closed then
    let reason :=
      if current_price ≥ 99/100 then "WIN - Market resolved in our favor"
      else if current_price ≤ 1/100 then "LOSS - Market resolved against us"
      else "Market resolved"
    some { market := market, action := "SELL", side := entry_side, price := current_price,
           reason := reason, timestamp := now }
  else if current_price ≤ self.stop_loss then
    some { market := market, action := "SELL", side := entry_side, price := current_price,
           reason := "STOP LOSS: " ++ fmtPct1 current_price ++ " <= " ++ fmtPct0 self.stop_loss,
           timestamp := now }
  else if current_price ≥ self.take_profit then
    some { market := market, action := "SELL", side := entry_side, price := current_price,
           reason := "TAKE PROFIT: " ++ fmtPct1 current_price, timestamp := now }
  else none

-- ## Portfolio ledger (main.py lines 351 - 406)

structure Portfolio where
  positions : List Position
  counter : ℕ
  deriving DecidableEq

def Portfolio.empty : Portfolio := ⟨[], 0⟩

def Portfolio.has_position (self : Portfolio) (market_id : String) : Bool :=
  self.positions.any (fun p => p.market_id == market_id && p.status == PositionStatus.OPEN)

def Portfolio.get_position (self : Portfolio) (market_id : String) : Option Position :=
  self.positions.find? (fun p => p.market_id == market_id && p.status == PositionStatus.OPEN)

/- Python dict assignment positions[p.id] = p on an insertion-ordered dict:
   replace the entry whose key exists, append otherwise. -/
def dictInsert (ps : List Position) (p : Position) : List Position :=
  if ps.any (fun q => q.id == p.id) then ps.map (fun q => if q.id == p.id then p else q)
  else ps ++ [p]

def Portfolio.open_position (self : Portfolio) (market_id market_title side : String)
    (entry_price size_usd : ℚ) (now : ℕ) : Position × Portfolio :=
  let shares := if entry_price > 0 then size_usd / entry_price else 0
  let counter' := self.counter + 1
  let position : Position :=
    { id := formatId counter', market_id := market_id, market_title := market_title,
      side := side, entry_price := entry_price, entry_time := now,
      size_usd := size_usd, shares := shares, status := PositionStatus.OPEN,
      exit_price := none, exit_time := none, pnl_usd := none, pnl_percent := none,
      result := TradeResult.PENDING }
  (position, { positions := dictInsert self.positions position, counter := counter' })

/- Raising KeyError (unknown position id) is modelled by the none component,
   in which case the returned ledger is the unchanged input. -/
def Portfolio.close_position (self : Portfolio) (position_id : String)
    (exit_price : ℚ) (result : TradeResult) (now : ℕ) : Option Position × Portfolio :=
  match self.positions.find? (fun p => p.id == position_id) with
  | none => (none, self)
  | some position =>
    let pnl_per_share := exit_price - position.entry_price
    let position' :=
      { position with
        status := PositionStatus.CLOSED,
        exit_price := some exit_price,
        exit_time := some now,
        pnl_usd := some (pnl_per_share * position.shares),
        pnl_percent := some (if position.entry_price > 0
          then pnl_per_share / position.entry_price * 100 else 0),
        result := result }
    (some position',
      { self with
        positions := self.positions.map
          (fun q => if q.id == position_id then position' else q) })

def Portfolio.get_open_positions (self : Portfolio) : List Position :=
  self.positions.filter (fun p => p.status == PositionStatus.OPEN)

structure Statistics where
  total_trades : ℕ
  wins : ℕ
  losses : ℕ
  stopped : ℕ
  win_rate : ℚ
  total_pnl : ℚ
  open_positions : ℕ
  deriving DecidableEq

def Portfolio.get_statistics (self : Portfolio) : Statistics :=
  let closed := self.positions.filter (fun p => p.status == PositionStatus.CLOSED)
  if closed.isEmpty then
    { total_trades := 0, wins := 0, losses := 0, stopped := 0, win_rate := 0,
      total_pnl := 0, open_positions := self.get_open_positions.length }
  else
    let wins := closed.filter (fun p => p.result == TradeResult.WIN)
    let losses := closed.filter (fun p => p.result == TradeResult.LOSS)
    let stopped := closed.filter (fun p => p.result == TradeResult.STOPPED)
    { total_trades := closed.length, wins := wins.length, losses := losses.length,
      stopped := stopped.length,
      win_rate := (wins.length : ℚ) / (closed.length : ℚ) * 100,
      total_pnl := (closed.map (fun p => p.pnl_usd.getD 0)).sum,
      open_positions := self.get_open_positions.length }

-- ## Trade simulator (main.py lines 507 - 551)

inductive TradeInfo where
  | entry (position_id market_id market_title side : String) (price size_usd shares : ℚ)
      (reason market_url : String)
  | exit (position_id market_id market_title side : String)
      (entry_price exit_price shares : ℚ) (pnl_usd pnl_percent : Option ℚ)
      (result : TradeResult) (reason : String) (stats : Statistics)
  deriving DecidableEq

/- The simulator's classification of a signal's free-text reason into a
   TradeResult (main.py line 542). -/
def classifyReasonText (reason : String) : TradeResult :=
  if pyIn ("WIN") (pyUpper reason) then TradeResult.WIN
  else if pyIn ("STOP") (pyUpper reason) then TradeResult.STOPPED
  else TradeResult.LOSS

def _check_entry (strategy : TradingStrategy) (pf : Portfolio) (market : Market)
    (now : ℕ) : Option TradeInfo × Portfolio :=
  let market_id := pyOrStr market.id market.condition_id
  match strategy.should_enter market (pf.has_position market_id) now with
  | some signal =>
    if signal.action == "BUY" then
      let opened := pf.open_position market_id market.question signal.side signal.price
        strategy.position_size now
      (some (TradeInfo.entry opened.1.id market_id market.question signal.side signal.price
        opened.1.size_usd opened.1.shares signal.reason
        ("https://polymarket.com/event/" ++ market.slug)), opened.2)
    else (none, pf)
  | none => (none, pf)

def _check_exit (strategy : TradingStrategy) (pf : Portfolio) (market : Market)
    (position : Position) (now : ℕ) : Option TradeInfo × Portfolio :=
  match strategy.should_exit market position.entry_price position.side now with
  | some signal =>
    if signal.action == "SELL" then
      let result := classifyReasonText signal.reason
      match pf.close_position position.id signal.price result now with
      | (some closed, pf') =>
        (some (TradeInfo.exit position.id position.market_id position.market_title
          position.side position.entry_price signal.price position.shares closed.pnl_usd
          closed.pnl_percent result signal.reason pf'.get_statistics), pf')
      | (none, pf') => (none, pf')
    else (none, pf)
  | none => (none, pf)

def process_market (strategy : TradingStrategy) (pf : Portfolio) (market : Market)
    (now : ℕ) : Option TradeInfo × Portfolio :=
  let market_id := pyOrStr market.id market.condition_id
  match pf.get_position market_id with
  | some existing => _check_exit strategy pf market existing now
  | none => _check_entry strategy pf market now

/- One run of the simulator: process_market over a sequence of snapshots,
   each paired with the wall-clock time of its cycle. -/
def processAll (strategy : TradingStrategy) : Portfolio → List (Market × ℕ) → Portfolio
  | pf, [] => pf
  | pf, (m, t) :: rest => processAll strategy (process_market strategy pf m t).2 rest

-- ## Ledger invariants

/- At most one OPEN position per market id. -/
def uniqueOpen (pf : Portfolio) : Prop :=
  ∀ market_id : String,
    pf.positions.countP
      (fun p => p.market_id == market_id && p.status == PositionStatus.OPEN) ≤ 1

/- Every stored position id was produced by the id generator from a counter
   value no greater than the current one. -/
def IdsBound (pf : Portfolio) : Prop :=
  ∀ p ∈ pf.positions, ∃ k, 1 ≤ k ∧ k ≤ pf.counter ∧ p.id = formatId k

-- ## The local variable current_price of should_exit, named for statements

def currentPriceFor (m : Market) (entry_side : String) : ℚ :=
  if entry_side == "YES" then m.yes_price else m.no_price

-- ## Concrete fixtures used by witnesses and counterexamples

def mEnter : Market :=
  { id := "m1", condition_id := "c1", question := "Lakers vs Celtics", slug := "lakers",
    outcomes := [{ token_id := "t1", outcome := "Yes", price := 41/50 },
                 { token_id := "t2", outcome := "No", price := 9/50 }],
    end_date := none, closed := false, resolved := false, volume := 0, liquidity := 0 }

def mTP : Market :=
  { mEnter with
    outcomes := [{ token_id := "t1", outcome := "Yes", price := 1 },
                 { token_id := "t2", outcome := "No", price := 0 }] }

def mRes : Market :=
  { mEnter with
    outcomes := [{ token_id := "t1", outcome := "Yes", price := 11/20 },
                 { token_id := "t2", outcome := "No", price := 9/20 }],
    resolved := true }

def mNoYesNo : Market :=
  { mEnter with
    outcomes := [{ token_id := "t1", outcome := "Lakers", price := 1/2 },
                 { token_id := "t2", outcome := "Celtics", price := 1/2 }] }

def posOpen1 : Position :=
  { id := "pos_0001", market_id := "m1", market_title := "Lakers vs Celtics", side := "YES",
    entry_price := 41/50, entry_time := 0, size_usd := 100, shares := 100 / (41/50),
    status := PositionStatus.OPEN, exit_price := none, exit_time := none,
    pnl_usd := none, pnl_percent := none, result := TradeResult.PENDING }

def pfOpen1 : Portfolio := { positions := [posOpen1], counter := 1 }

-- ## Branch lemmas for the rule evaluator

theorem should_enter_blocked (st : TradingStrategy) (m : Market) (ex : Bool) (now : ℕ)
    (h : (ex || m.closed || m.resolved) = true) :
    st.should_enter m ex now = none := by
  unfold TradingStrategy.should_enter
  rw [h]
  rfl

theorem should_enter_eq_buy (st : TradingStrategy) (m : Market) (ex : Bool) (now : ℕ)
    (hex : ex = false) (hcl : m.closed = false) (hres : m.resolved = false)
    (hth : m.best_outcome.2 ≥ st.entry_threshold) :
    st.should_enter m ex now = some
      { market := m, action := "BUY", side := m.best_outcome.1, price := m.best_outcome.2,
        reason := "Entry signal: " ++ m.best_outcome.1 ++ " at " ++ fmtPct1 m.best_outcome.2
          ++ " >= " ++ fmtPct0 st.entry_threshold ++ " threshold",
        timestamp := now } := by
  unfold TradingStrategy.should_enter
  rw [hex, hcl, hres]
  simp only [Bool.or_self, Bool.false_eq_true, if_false]
  rw [if_pos hth]

theorem should_enter_below (st : TradingStrategy) (m : Market) (ex : Bool) (now : ℕ)
    (hex : ex = false) (hcl : m.closed = false) (hres : m.resolved = false)
    (hth : ¬ m.best_outcome.2 ≥ st.entry_threshold) :
    st.should_enter m ex now = none := by
  unfold TradingStrategy.should_enter
  rw [hex, hcl, hres]
  simp only [Bool.or_self, Bool.false_eq_true, if_false]
  rw [if_neg hth]

theorem should_exit_eq_take_profit (st : TradingStrategy) (m : Market) (ep cp : ℚ)
    (side : String) (now : ℕ) (hcp : currentPriceFor m side = cp)
    (hres : m.resolved = false) (hcl : m.closed = false)
    (hsl : ¬ cp ≤ st.stop_loss) (htp : cp ≥ st.take_profit) :
    st.should_exit m ep side now = some
      { market := m, action := "SELL", side := side, price := cp,
        reason := "TAKE PROFIT: " ++ fmtPct1 cp, timestamp := now } := by
  unfold TradingStrategy.should_exit
  unfold currentPriceFor at hcp
  rw [hcp, hres, hcl]
  simp only [Bool.or_self, Bool.false_eq_true, if_false]
  rw [if_neg hsl, if_pos htp]

/-- Claim C3: for a resolved or closed snapshot, should_exit always emits a SELL
signal whose reason comes from the resolution branch (priority over stop-loss and
take-profit): tagged WIN when the current price is at least 0.99, tagged LOSS when
it is at most 0.01, and the plain "Market resolved" text otherwise; the simulator
classifies the WIN text as WIN and the other two as LOSS. -/
theorem C3_resolved_exit_priority (st : TradingStrategy) (m : Market) (ep : ℚ)
    (side : String) (now : ℕ) (h : m.resolved = true ∨ m.closed = true) :
    ∃ sig : TradeSignal,
      st.should_exit m ep side now = some sig ∧ sig.action = "SELL" ∧
      sig.price = currentPriceFor m side ∧
      (currentPriceFor m side ≥ 99/100 →
        sig.reason = "WIN - Market resolved in our favor" ∧
        classifyReasonText sig.reason = TradeResult.WIN) ∧
      (currentPriceFor m side ≤ 1/100 →
        sig.reason = "LOSS - Market resolved against us" ∧
        classifyReasonText sig.reason = TradeResult.LOSS) ∧
      (1/100 < currentPriceFor m side → currentPriceFor m side < 99/100 →
        sig.reason = "Market resolved" ∧
        classifyReasonText sig.reason = TradeResult.LOSS) := by
  have hb : (m.resolved || m.closed) = true := by
    rcases h with h | h <;> simp [h]
  refine ⟨{ market := m, action := "SELL", side := side, price := currentPriceFor m side,
            reason := if currentPriceFor m side ≥ 99/100 then
                "WIN - Market resolved in our favor"
              else if currentPriceFor m side ≤ 1/100 then
                "LOSS - Market resolved against us"
              else "Market resolved",
            timestamp := now }, ?_, rfl, rfl, ?_, ?_, ?_⟩
  · unfold TradingStrategy.should_exit
    rw [hb]
    rfl
  · intro hge
    have hr : (if currentPriceFor m side ≥ 99/100 then "WIN - Market resolved in our favor"
        else if currentPriceFor m side ≤ 1/100 then "LOSS - Market resolved against us"
        else "Market resolved") = "WIN - Market resolved in our favor" := if_pos hge
    exact ⟨hr, (congrArg classifyReasonText hr).trans (by decide)⟩
  · intro hle
    have hnge : ¬ currentPriceFor m side ≥ 99/100 := by
      intro hge
      have : (99:ℚ)/100 ≤ 1/100 := le_trans hge hle
      norm_num at this
    have hr : (if currentPriceFor m side ≥ 99/100 then "WIN - Market resolved in our favor"
        else if currentPriceFor m side ≤ 1/100 then "LOSS - Market resolved against us"
        else "Market resolved") = "LOSS - Market resolved against us" := by
      rw [if_neg hnge, if_pos hle]
    exact ⟨hr, (congrArg classifyReasonText hr).trans (by decide)⟩
  · intro h1 h2
    have hnge : ¬ currentPriceFor m side ≥ 99/100 := not_le.mpr h2
    have hnle : ¬ currentPriceFor m side ≤ 1/100 := not_le.mpr h1
    have hr : (if currentPriceFor m side ≥ 99/100 then "WIN - Market resolved in our favor"
        else if currentPriceFor m side ≤ 1/100 then "LOSS - Market resolved against us"
        else "Market resolved") = "Market resolved" := by
      rw [if_neg hnge, if_neg hnle]
    exact ⟨hr, (congrArg classifyReasonText hr).trans (by decide)⟩

/-- Witness for C3: the resolved snapshot mRes with current YES price 0.55 (below the
stop-loss threshold 0.60) exits with the resolution-branch reason, not the stop-loss
reason. -/
theorem C3_resolved_exit_priority_witness :
    ∃ sig : TradeSignal, defaultStrategy.should_exit mRes (41/50) ("YES") 1 = some sig ∧
      sig.action = "SELL" ∧ sig.reason = "Market resolved" ∧
      classifyReasonText sig.reason = TradeResult.LOSS := by
  obtain ⟨sig, h1, h2, _, _, _, h3⟩ :=
    C3_resolved_exit_priority defaultStrategy mRes (41/50) ("YES") 1 (Or.inl rfl)
  have hcp : currentPriceFor mRes ("YES") = 11/20 := rfl
  obtain ⟨hr, hc⟩ := h3 (by rw [hcp]; norm_num) (by rw [hcp]; norm_num)
  exact ⟨sig, h1, h2, hr, hc⟩

/-- Claim C4: should_enter returns no signal when a position exists or the snapshot
is closed or resolved, regardless of price; otherwise it returns a BUY signal
carrying the dominant outcome's side and price exactly when that price reaches the
entry threshold. -/
theorem C4_entry_rules (st : TradingStrategy) (m : Market) (ex : Bool) (now : ℕ) :
    ((ex = true ∨ m.closed = true ∨ m.resolved = true) →
      st.should_enter m ex now = none) ∧
    (ex = false → m.closed = false → m.resolved = false →
      ((∃ sig : TradeSignal, st.should_enter m ex now = some sig ∧ sig.action = "BUY" ∧
          sig.side = m.best_outcome.1 ∧ sig.price = m.best_outcome.2) ↔
        m.best_outcome.2 ≥ st.entry_threshold)) := by
  constructor
  · intro h
    refine should_enter_blocked st m ex now ?_
    rcases h with h | h | h <;> simp [h]
  · intro hex hcl hres
    constructor
    · rintro ⟨sig, hsig, -, -, -⟩
      by_contra hth
      rw [should_enter_below st m ex now hex hcl hres hth] at hsig
      exact Option.noConfusion hsig
    · intro hth
      exact ⟨_, should_enter_eq_buy st m ex now hex hcl hres hth, rfl, rfl, rfl⟩

/-- Witness for C4: on the live snapshot mEnter (dominant YES at 0.82, threshold
0.80) the evaluator emits a BUY signal, and with an existing position it emits
nothing even though the price is above threshold. -/
theorem C4_entry_rules_witness :
    (∃ sig : TradeSignal, defaultStrategy.should_enter mEnter false 0 = some sig ∧
      sig.action = "BUY" ∧ sig.side = mEnter.best_outcome.1 ∧
      sig.price = mEnter.best_outcome.2) ∧
    defaultStrategy.should_enter mEnter true 0 = none := by
  have h := C4_entry_rules defaultStrategy mEnter false 0
  have hbo : mEnter.best_outcome = ("YES", 41/50) := by
    unfold Market.best_outcome
    have hy : mEnter.yes_price = 41/50 := rfl
    have hn : mEnter.no_price = 9/50 := rfl
    rw [hy, hn, if_pos (by norm_num)]
  constructor
  · exact (h.2 rfl rfl rfl).mpr (by rw [hbo]; norm_num [defaultStrategy])
  · exact (C4_entry_rules defaultStrategy mEnter true 0).1 (Or.inl rfl)

-- ## Signals without their timestamp field

def signalCore (s : TradeSignal) : Market × String × String × ℚ × String :=
  (s.market, s.action, s.side, s.price, s.reason)

/-- Claim C9 (amended): should_enter and should_exit are deterministic functions of
their arguments together with the clock reading stored in the signal's timestamp:
all fields except the timestamp agree across calls, and calls made at the same
instant return fully identical signals.  (As stated, the claim fails: the
timestamp field records the wall-clock time of the call.) -/
theorem C9_evaluator_pure_modulo_timestamp (st : TradingStrategy) (m : Market)
    (ex : Bool) (ep : ℚ) (side : String) (n₁ n₂ : ℕ) :
    (st.should_enter m ex n₁).map signalCore = (st.should_enter m ex n₂).map signalCore ∧
    (st.should_exit m ep side n₁).map signalCore
        = (st.should_exit m ep side n₂).map signalCore ∧
    (n₁ = n₂ →
      st.should_enter m ex n₁ = st.should_enter m ex n₂ ∧
      st.should_exit m ep side n₁ = st.should_exit m ep side n₂) := by
  refine ⟨?_, ?_, ?_⟩
  · simp only [TradingStrategy.should_enter]
    split_ifs <;> rfl
  · simp only [TradingStrategy.should_exit]
    split_ifs <;> rfl
  · rintro rfl
    exact ⟨rfl, rfl⟩

theorem mEnter_best : mEnter.best_outcome = ("YES", 41/50) := by
  unfold Market.best_outcome
  have hy : mEnter.yes_price = 41/50 := rfl
  have hn : mEnter.no_price = 9/50 := rfl
  rw [hy, hn, if_pos (by norm_num)]

/-- Counterexample to claim C9 as stated: two calls of should_enter on the same
snapshot with the same position flag, made at different wall-clock instants,
return different signals (they differ in the timestamp field). -/
theorem C9_counterexample_timestamp :
    defaultStrategy.should_enter mEnter false 0 ≠ defaultStrategy.should_enter mEnter false 1 := by
  have hth : mEnter.best_outcome.2 ≥ defaultStrategy.entry_threshold := by
    rw [mEnter_best]
    norm_num [defaultStrategy]
  have h0 := should_enter_eq_buy defaultStrategy mEnter false 0 rfl rfl rfl hth
  have h1 := should_enter_eq_buy defaultStrategy mEnter false 1 rfl rfl rfl hth
  intro h
  rw [h0, h1] at h
  have h2 := congrArg (Option.map TradeSignal.timestamp) h
  simp at h2

/-- Witness for the amended C9: at the concrete snapshot mEnter, calls at times 0
and 1 agree on every field but the timestamp, and two calls at time 0 are equal. -/
theorem C9_evaluator_pure_modulo_timestamp_witness :
    (defaultStrategy.should_enter mEnter false 0).map signalCore
        = (defaultStrategy.should_enter mEnter false 1).map signalCore ∧
    defaultStrategy.should_enter mEnter false 0 = defaultStrategy.should_enter mEnter false 0 := by
  have h := C9_evaluator_pure_modulo_timestamp defaultStrategy mEnter false (41/50) ("YES") 0 1
  have h' := C9_evaluator_pure_modulo_timestamp defaultStrategy mEnter false (41/50) ("YES") 0 0
  exact ⟨h.1, (h'.2.2 rfl).1⟩

/-- Claim C10: when no outcome of a snapshot is labeled yes or no
(case-insensitively), both side prices default to 0, the dominant outcome is
YES at price 0, and the entry evaluator returns no signal for any positive
entry threshold. -/
theorem C10_no_yes_no_outcome (m : Market)
    (h : ∀ o ∈ m.outcomes, pyLower o.outcome ≠ "yes" ∧ pyLower o.outcome ≠ "no") :
    m.yes_price = 0 ∧ m.no_price = 0 ∧ m.best_outcome = ("YES", 0) ∧
    (∀ st : TradingStrategy, 0 < st.entry_threshold → ∀ (ex : Bool) (now : ℕ),
      st.should_enter m ex now = none) := by
  have hy : m.yes_price = 0 := by
    unfold Market.yes_price
    have hf : m.outcomes.find? (fun o => pyLower o.outcome == "yes") = none :=
      List.find?_eq_none.mpr (fun o ho => by simp [(h o ho).1])
    rw [hf]
  have hn : m.no_price = 0 := by
    unfold Market.no_price
    have hf : m.outcomes.find? (fun o => pyLower o.outcome == "no") = none :=
      List.find?_eq_none.mpr (fun o ho => by simp [(h o ho).2])
    rw [hf]
  have hb : m.best_outcome = ("YES", 0) := by
    unfold Market.best_outcome
    rw [hy, hn, if_pos le_rfl]
  refine ⟨hy, hn, hb, ?_⟩
  intro st hth ex now
  cases hors : (ex || m.closed || m.resolved) with
  | true => exact should_enter_blocked st m ex now hors
  | false =>
    have hex : ex = false := by
      cases ex
      · rfl
      · simp at hors
    have hcl : m.closed = false := by
      cases hc : m.closed
      · rfl
      · rw [hc] at hors; simp at hors
    have hres : m.resolved = false := by
      cases hc : m.resolved
      · rfl
      · rw [hc] at hors; simp at hors
    refine should_enter_below st m ex now hex hcl hres ?_
    rw [hb]
    exact not_le.mpr hth

/-- Witness for C10: a snapshot whose outcomes are labeled Lakers and Celtics has
both side prices 0, dominant outcome YES at 0, and produces no entry signal at
the default threshold 0.80. -/
theorem C10_no_yes_no_outcome_witness :
    mNoYesNo.yes_price = 0 ∧ mNoYesNo.no_price = 0 ∧
    mNoYesNo.best_outcome = ("YES", 0) ∧
    defaultStrategy.should_enter mNoYesNo false 0 = none := by
  obtain ⟨h1, h2, h3, h4⟩ := C10_no_yes_no_outcome mNoYesNo (by decide)
  exact ⟨h1, h2, h3, h4 defaultStrategy (by norm_num [defaultStrategy]) false 0⟩

-- ## Closing a found position: the record the ledger writes

def closedPosition (p : Position) (exit_price : ℚ) (result : TradeResult) (now : ℕ) :
    Position :=
  { p with
    status := PositionStatus.CLOSED,
    exit_price := some exit_price,
    exit_time := some now,
    pnl_usd := some ((exit_price - p.entry_price) * p.shares),
    pnl_percent := some (if p.entry_price > 0
      then (exit_price - p.entry_price) / p.entry_price * 100 else 0),
    result := result }

theorem close_position_found (pf : Portfolio) (position_id : String) (exit_price : ℚ)
    (result : TradeResult) (now : ℕ) (p : Position)
    (hfind : pf.positions.find? (fun q => q.id == position_id) = some p) :
    pf.close_position position_id exit_price result now =
      (some (closedPosition p exit_price result now),
       { pf with
         positions := pf.positions.map
           (fun q => if q.id == position_id then closedPosition p exit_price result now
             else q) }) := by
  unfold Portfolio.close_position closedPosition
  rw [hfind]

/-- Claim C5: closing an existing position sets status CLOSED, stores the exit
price and result, and computes pnl_usd = (exit - entry) * shares and
pnl_percent = (exit - entry) / entry * 100, with pnl_percent 0 when the entry
price is 0. -/
theorem C5_close_position_pnl (pf : Portfolio) (position_id : String) (exit_price : ℚ)
    (result : TradeResult) (now : ℕ) (p : Position)
    (hfind : pf.positions.find? (fun q => q.id == position_id) = some p) :
    ∃ p' pf', pf.close_position position_id exit_price result now = (some p', pf') ∧
      p'.status = PositionStatus.CLOSED ∧ p'.exit_price = some exit_price ∧
      p'.result = result ∧
      p'.pnl_usd = some ((exit_price - p.entry_price) * p.shares) ∧
      (0 < p.entry_price →
        p'.pnl_percent = some ((exit_price - p.entry_price) / p.entry_price * 100)) ∧
      (p.entry_price = 0 → p'.pnl_percent = some 0) := by
  rw [close_position_found pf position_id exit_price result now p hfind]
  refine ⟨_, _, rfl, rfl, rfl, rfl, rfl, ?_, ?_⟩
  · intro hpos
    show some (if p.entry_price > 0 then (exit_price - p.entry_price) / p.entry_price * 100
      else 0) = _
    rw [if_pos hpos]
  · intro h0
    show some (if p.entry_price > 0 then (exit_price - p.entry_price) / p.entry_price * 100
      else 0) = some 0
    rw [if_neg (by rw [h0]; exact lt_irrefl 0)]

/-- Witness for C5: a position opened at 0.82 with 100 dollars (121.951 shares)
closed at 0.55 carries pnl_usd = (0.55 - 0.82) * (100 / 0.82) = -1350/41, within
0.01 of -32.93, and pnl_percent = -1350/41 as well. -/
theorem C5_close_position_pnl_witness :
    ∃ p' pf', pfOpen1.close_position ("pos_0001") (11/20) TradeResult.STOPPED 1
        = (some p', pf') ∧
      p'.pnl_usd = some ((11/20 - 41/50) * (100 / (41/50))) ∧
      p'.pnl_usd = some (-1350/41) ∧
      (-3294/100 : ℚ) < -1350/41 ∧ (-1350/41 : ℚ) < -3292/100 := by
  obtain ⟨p', pf', heq, hst, hep, hres, hpnl, hpct, -⟩ :=
    C5_close_position_pnl pfOpen1 ("pos_0001") (11/20) TradeResult.STOPPED 1 posOpen1 rfl
  refine ⟨p', pf', heq, hpnl, ?_, by norm_num, by norm_num⟩
  rw [hpnl]
  show some ((11/20 - 41/50) * (100 / (41/50)) : ℚ) = some (-1350/41)
  norm_num

/-- Claim C7: close_position fails exactly when the given id is absent from the
ledger, and on failure the ledger state is unchanged. -/
theorem C7_close_unknown (pf : Portfolio) (position_id : String) (exit_price : ℚ)
    (result : TradeResult) (now : ℕ) :
    ((pf.close_position position_id exit_price result now).1 = none ↔
      ∀ p ∈ pf.positions, p.id ≠ position_id) ∧
    ((pf.close_position position_id exit_price result now).1 = none →
      (pf.close_position position_id exit_price result now).2 = pf) := by
  cases hfind : pf.positions.find? (fun q => q.id == position_id) with
  | none =>
    have hnone : pf.close_position position_id exit_price result now = (none, pf) := by
      unfold Portfolio.close_position
      rw [hfind]
    rw [hnone]
    constructor
    · constructor
      · intro _ p hp hid
        have h2 := List.find?_eq_none.mp hfind p hp
        exact h2 (by simp [hid])
      · intro _
        rfl
    · intro _
      rfl
  | some p =>
    have hsome := close_position_found pf position_id exit_price result now p hfind
    rw [hsome]
    constructor
    · constructor
      · intro h
        exact Option.noConfusion h
      · intro hall
        exfalso
        have hpid : p.id = position_id := by
          have h3 := List.find?_some hfind
          simpa using h3
        exact hall p (List.mem_of_find?_eq_some hfind) hpid
    · intro h
      exact Option.noConfusion h

/-- Witness for C7: closing pos_0001 on an empty ledger fails and leaves the
ledger empty. -/
theorem C7_close_unknown_witness :
    ( Portfolio.empty.close_position ("pos_0001") 1 TradeResult.WIN 0).1 = none ∧
    ( Portfolio.empty.close_position ("pos_0001") 1 TradeResult.WIN 0).2 = Portfolio.empty := by
  have h := C7_close_unknown Portfolio.empty ("pos_0001") 1 TradeResult.WIN 0
  have h1 : ( Portfolio.empty.close_position ("pos_0001") 1 TradeResult.WIN 0).1 = none :=
    h.1.mpr (by intro p hp; simp [ Portfolio.empty] at hp)
  exact ⟨h1, h.2 h1⟩

/-- Claim C8: statistics are computed over CLOSED positions only (open_positions
counts OPEN ones): total_trades is the number of closed positions, win_rate the
percentage of closed trades with result WIN, total_pnl their pnl sum; with zero
closed trades win_rate, total_pnl and total_trades are 0 rather than an error. -/
theorem C8_statistics (pf : Portfolio) :
    (pf.get_statistics).total_trades
        = (pf.positions.filter (fun p => p.status == PositionStatus.CLOSED)).length ∧
    (pf.get_statistics).win_rate
        = ((pf.positions.filter (fun p => p.status == PositionStatus.CLOSED)).countP
              (fun p => p.result == TradeResult.WIN) : ℚ)
          / ((pf.positions.filter (fun p => p.status == PositionStatus.CLOSED)).length : ℚ)
          * 100 ∧
    (pf.get_statistics).total_pnl
        = ((pf.positions.filter (fun p => p.status == PositionStatus.CLOSED)).map
            (fun p => p.pnl_usd.getD 0)).sum ∧
    (pf.get_statistics).open_positions
        = (pf.positions.filter (fun p => p.status == PositionStatus.OPEN)).length ∧
    (pf.positions.filter (fun p => p.status == PositionStatus.CLOSED) = [] →
      (pf.get_statistics).win_rate = 0 ∧ (pf.get_statistics).total_pnl = 0 ∧
        (pf.get_statistics).total_trades = 0) := by
  by_cases hemp : (pf.positions.filter (fun p => p.status == PositionStatus.CLOSED)).isEmpty
    = true
  · have hnil : pf.positions.filter (fun p => p.status == PositionStatus.CLOSED) = [] :=
      List.isEmpty_iff.mp hemp
    have hzero : pf.get_statistics =
        { total_trades := 0, wins := 0, losses := 0, stopped := 0, win_rate := 0,
          total_pnl := 0, open_positions := pf.get_open_positions.length } := by
      unfold Portfolio.get_statistics
      exact if_pos hemp
    rw [hzero]
    refine ⟨?_, ?_, ?_, rfl, ?_⟩
    · rw [hnil]; rfl
    · rw [hnil]
      simp
    · rw [hnil]; rfl
    · intro _
      exact ⟨rfl, rfl, rfl⟩
  · have hfull : pf.get_statistics =
        { total_trades :=
            (pf.positions.filter (fun p => p.status == PositionStatus.CLOSED)).length,
          wins := ((pf.positions.filter (fun p => p.status == PositionStatus.CLOSED)).filter
            (fun p => p.result == TradeResult.WIN)).length,
          losses := ((pf.positions.filter (fun p => p.status == PositionStatus.CLOSED)).filter
            (fun p => p.result == TradeResult.LOSS)).length,
          stopped := ((pf.positions.filter (fun p => p.status == PositionStatus.CLOSED)).filter
            (fun p => p.result == TradeResult.STOPPED)).length,
          win_rate := (((pf.positions.filter
              (fun p => p.status == PositionStatus.CLOSED)).filter
              (fun p => p.result == TradeResult.WIN)).length : ℚ)
            / ((pf.positions.filter
              (fun p => p.status == PositionStatus.CLOSED)).length : ℚ) * 100,
          total_pnl := ((pf.positions.filter
            (fun p => p.status == PositionStatus.CLOSED)).map
            (fun p => p.pnl_usd.getD 0)).sum,
          open_positions := pf.get_open_positions.length } := by
      unfold Portfolio.get_statistics
      exact if_neg hemp
    rw [hfull]
    refine ⟨rfl, ?_, rfl, rfl, ?_⟩
    · rw [List.countP_eq_length_filter]
    · intro hnil
      exfalso
      rw [hnil] at hemp
      exact hemp rfl

/-- Witness for C8: the empty ledger has zero closed trades and statistics
win_rate = 0, total_pnl = 0, total_trades = 0. -/
theorem C8_statistics_witness :
    ( Portfolio.empty.get_statistics).win_rate = 0 ∧
    ( Portfolio.empty.get_statistics).total_pnl = 0 ∧
    ( Portfolio.empty.get_statistics).total_trades = 0 :=
  (C8_statistics Portfolio.empty).2.2.2.2 rfl

-- ## Concrete percent rendering used by the take-profit reason

theorem roundHalfEven_thousand : roundHalfEven ((1:ℚ) * 1000) = 1000 := by
  unfold roundHalfEven
  norm_num

theorem fmtPct1_one : fmtPct1 1 = "100.0%" := by
  unfold fmtPct1
  rw [roundHalfEven_thousand]
  decide

-- ## Extracting the recorded result of an EXIT trade event

def exitResultOf : Option TradeInfo → Option TradeResult
  | some (TradeInfo.exit _ _ _ _ _ _ _ _ _ r _ _) => some r
  | _ => none

/-- Claim C2 (refuted, code bug): on an open YES position whose market is neither
resolved nor closed and whose current price 1.0 reaches the take-profit threshold
(and is strictly above the stop loss), the exit signal's reason is
"TAKE PROFIT: 100.0%", which contains neither WIN nor STOP, so the simulator's
substring classifier records the trade as LOSS — not WIN as the specification
claims. -/
theorem C2_take_profit_classified_loss :
    (defaultStrategy.should_exit mTP (41/50) ("YES") 1).map TradeSignal.reason
        = some ("TAKE PROFIT: 100.0%") ∧
    classifyReasonText ("TAKE PROFIT: 100.0%") = TradeResult.LOSS ∧
    exitResultOf (process_market defaultStrategy pfOpen1 mTP 1).1
        = some TradeResult.LOSS := by
  have hcp : currentPriceFor mTP ("YES") = 1 := rfl
  have hsl : ¬ (1:ℚ) ≤ defaultStrategy.stop_loss := by norm_num [defaultStrategy]
  have htp : (1:ℚ) ≥ defaultStrategy.take_profit := by norm_num [defaultStrategy]
  have hse := should_exit_eq_take_profit defaultStrategy mTP (41/50) 1 ("YES") 1 hcp rfl rfl
    hsl htp
  have hreason : ("TAKE PROFIT: " ++ fmtPct1 1 : String) = "TAKE PROFIT: 100.0%" := by
    rw [fmtPct1_one]
    decide
  refine ⟨?_, ?_, ?_⟩
  · rw [hse]
    show some ("TAKE PROFIT: " ++ fmtPct1 1) = some ("TAKE PROFIT: 100.0%")
    rw [hreason]
  · decide
  · have hclass : classifyReasonText ("TAKE PROFIT: " ++ fmtPct1 1) = TradeResult.LOSS :=
      (congrArg classifyReasonText hreason).trans (by decide)
    have hpm : process_market defaultStrategy pfOpen1 mTP 1
        = _check_exit defaultStrategy pfOpen1 mTP posOpen1 1 := rfl
    have hse' : defaultStrategy.should_exit mTP posOpen1.entry_price posOpen1.side 1
        = some { market := mTP, action := "SELL", side := "YES", price := 1,
                 reason := "TAKE PROFIT: " ++ fmtPct1 1, timestamp := 1 } := hse
    have hclose := close_position_found pfOpen1 posOpen1.id 1 TradeResult.LOSS 1 posOpen1 rfl
    rw [hpm]
    unfold _check_exit
    rw [hse']
    simp only [beq_self_eq_true, if_true, hclass, hclose]
    rfl

-- ## Freshness of generated position ids

theorem fresh_id (pf : Portfolio) (h : IdsBound pf) :
    ∀ q ∈ pf.positions, q.id ≠ formatId (pf.counter + 1) := by
  intro q hq heq
  obtain ⟨k, hk1, hk2, hid⟩ := h q hq
  rw [hid] at heq
  have hk := formatId_inj heq
  omega

theorem dictInsert_fresh (ps : List Position) (p : Position)
    (h : ∀ q ∈ ps, q.id ≠ p.id) : dictInsert ps p = ps ++ [p] := by
  unfold dictInsert
  have hany : ps.any (fun q => q.id == p.id) = false := by
    cases hb : ps.any (fun q => q.id == p.id)
    · rfl
    · exfalso
      obtain ⟨q, hq, hqid⟩ := List.any_eq_true.mp hb
      exact h q hq (by simpa using hqid)
  rw [hany]
  rfl

theorem open_position_fresh (pf : Portfolio) (market_id market_title side : String)
    (entry_price size_usd : ℚ) (now : ℕ) (h : IdsBound pf) :
    (pf.open_position market_id market_title side entry_price size_usd now).2.positions
        = pf.positions
          ++ [(pf.open_position market_id market_title side entry_price size_usd now).1] ∧
    (∀ q ∈ pf.positions,
      q.id ≠ (pf.open_position market_id market_title side entry_price size_usd now).1.id) ∧
    IdsBound (pf.open_position market_id market_title side entry_price size_usd now).2 := by
  have hfr : ∀ q ∈ pf.positions,
      q.id ≠ (pf.open_position market_id market_title side entry_price size_usd now).1.id :=
    fun q hq => fresh_id pf h q hq
  have hps : (pf.open_position market_id market_title side entry_price size_usd now).2.positions
      = pf.positions
        ++ [(pf.open_position market_id market_title side entry_price size_usd now).1] :=
    dictInsert_fresh pf.positions _ hfr
  refine ⟨hps, hfr, ?_⟩
  intro q hq
  rw [hps] at hq
  rcases List.mem_append.mp hq with hq | hq
  · obtain ⟨k, hk1, hk2, hk3⟩ := h q hq
    exact ⟨k, hk1, le_trans hk2 (Nat.le_succ pf.counter), hk3⟩
  · have hq' : q = (pf.open_position market_id market_title side entry_price size_usd now).1 := by
      simpa using hq
    refine ⟨pf.counter + 1, by omega, Nat.le_refl (pf.counter + 1), ?_⟩
    rw [hq']
    rfl

-- ## The close operation preserves the ledger invariants

theorem IdsBound_close (pf : Portfolio) (position_id : String) (exit_price : ℚ)
    (result : TradeResult) (now : ℕ) (h : IdsBound pf) :
    IdsBound (pf.close_position position_id exit_price result now).2 := by
  cases hfind : pf.positions.find? (fun q => q.id == position_id) with
  | none =>
    have hnone : pf.close_position position_id exit_price result now = (none, pf) := by
      unfold Portfolio.close_position
      rw [hfind]
    rw [hnone]
    exact h
  | some p =>
    rw [close_position_found pf position_id exit_price result now p hfind]
    intro q hq
    obtain ⟨a, ha, rfl⟩ := List.mem_map.mp hq
    obtain ⟨k, hk1, hk2, hk3⟩ := h a ha
    refine ⟨k, hk1, hk2, ?_⟩
    show (if (a.id == position_id) = true
        then closedPosition p exit_price result now else a).id = formatId k
    by_cases hid : (a.id == position_id) = true
    · rw [if_pos hid]
      have hpid : p.id = position_id := by simpa using List.find?_some hfind
      have haid : a.id = position_id := by simpa using hid
      show p.id = formatId k
      rw [hpid, ← haid, hk3]
    · rw [if_neg hid]
      exact hk3

theorem uniqueOpen_close (pf : Portfolio) (position_id : String) (exit_price : ℚ)
    (result : TradeResult) (now : ℕ) (h : uniqueOpen pf) :
    uniqueOpen (pf.close_position position_id exit_price result now).2 := by
  cases hfind : pf.positions.find? (fun q => q.id == position_id) with
  | none =>
    have hnone : pf.close_position position_id exit_price result now = (none, pf) := by
      unfold Portfolio.close_position
      rw [hfind]
    rw [hnone]
    exact h
  | some p =>
    rw [close_position_found pf position_id exit_price result now p hfind]
    intro mid
    show (List.map (fun q => if q.id == position_id
        then closedPosition p exit_price result now else q) pf.positions).countP
      (fun q => q.market_id == mid && q.status == PositionStatus.OPEN) ≤ 1
    rw [List.countP_map]
    refine le_trans (List.countP_mono_left ?_) (h mid)
    intro a ha hpa
    simp only [Function.comp_apply] at hpa
    by_cases hid : (a.id == position_id) = true
    · exfalso
      rw [if_pos hid] at hpa
      have hfalse : ((closedPosition p exit_price result now).market_id == mid
          && (closedPosition p exit_price result now).status == PositionStatus.OPEN)
          = ((closedPosition p exit_price result now).market_id == mid && false) := rfl
      rw [hfalse] at hpa
      simp at hpa
    · rw [if_neg hid] at hpa
      exact hpa

-- ## A missing open position means a zero OPEN count for that market id

theorem get_position_none_countP (pf : Portfolio) (market_id : String)
    (h : pf.get_position market_id = none) :
    pf.positions.countP
      (fun p => p.market_id == market_id && p.status == PositionStatus.OPEN) = 0 := by
  refine List.countP_eq_zero.mpr ?_
  intro a ha
  exact List.find?_eq_none.mp h a ha

-- ## One simulator step preserves the ledger invariants

theorem Inv_process (st : TradingStrategy) (pf : Portfolio) (m : Market) (t : ℕ)
    (h1 : IdsBound pf) (h2 : uniqueOpen pf) :
    IdsBound (process_market st pf m t).2 ∧ uniqueOpen (process_market st pf m t).2 := by
  unfold process_market
  cases hget : pf.get_position (pyOrStr m.id m.condition_id) with
  | some existing =>
    simp only [hget]
    cases hsig : st.should_exit m existing.entry_price existing.side t with
    | none =>
      unfold _check_exit
      simp only [hsig]
      exact ⟨h1, h2⟩
    | some sig =>
      unfold _check_exit
      simp only [hsig]
      by_cases hact : (sig.action == "SELL") = true
      · rw [if_pos hact]
        have hb1 := IdsBound_close pf existing.id sig.price (classifyReasonText sig.reason) t h1
        have hb2 := uniqueOpen_close pf existing.id sig.price (classifyReasonText sig.reason) t h2
        cases hcp : pf.close_position existing.id sig.price (classifyReasonText sig.reason) t with
        | mk copt pf' =>
          rw [hcp] at hb1 hb2
          cases copt
          · exact ⟨hb1, hb2⟩
          · exact ⟨hb1, hb2⟩
      · rw [if_neg hact]
        exact ⟨h1, h2⟩
  | none =>
    simp only [hget]
    unfold _check_entry
    cases hsig : st.should_enter m (pf.has_position (pyOrStr m.id m.condition_id)) t with
    | none =>
      simp only [hsig]
      exact ⟨h1, h2⟩
    | some sig =>
      simp only [hsig]
      by_cases hact : (sig.action == "BUY") = true
      · rw [if_pos hact]
        obtain ⟨hps, hfr, hib⟩ := open_position_fresh pf (pyOrStr m.id m.condition_id)
          m.question sig.side sig.price st.position_size t h1
        refine ⟨hib, ?_⟩
        intro mid
        show (pf.open_position (pyOrStr m.id m.condition_id) m.question sig.side sig.price
            st.position_size t).2.positions.countP
          (fun p => p.market_id == mid && p.status == PositionStatus.OPEN) ≤ 1
        rw [hps, List.countP_append]
        by_cases hmid : (((pf.open_position (pyOrStr m.id m.condition_id) m.question sig.side
            sig.price st.position_size t).1.market_id == mid)
            && ((pf.open_position (pyOrStr m.id m.condition_id) m.question sig.side
            sig.price st.position_size t).1.status == PositionStatus.OPEN)) = true
        · have hmid' : pyOrStr m.id m.condition_id = mid := by
            have hpair := (Bool.and_eq_true _ _).mp hmid
            have hme := hpair.1
            simpa using hme
          have hz := get_position_none_countP pf (pyOrStr m.id m.condition_id) hget
          rw [hmid'] at hz
          rw [hz]
          have hle := List.countP_le_length
            (p := fun p => p.market_id == mid && p.status == PositionStatus.OPEN)
            (l := [(pf.open_position (pyOrStr m.id m.condition_id) m.question sig.side
              sig.price st.position_size t).1])
          simp only [List.length_singleton] at hle
          omega
        · have hmidf : (((pf.open_position (pyOrStr m.id m.condition_id) m.question sig.side
              sig.price st.position_size t).1.market_id == mid)
              && ((pf.open_position (pyOrStr m.id m.condition_id) m.question sig.side
              sig.price st.position_size t).1.status == PositionStatus.OPEN)) = false := by
            cases hb : (((pf.open_position (pyOrStr m.id m.condition_id) m.question sig.side
                sig.price st.position_size t).1.market_id == mid)
                && ((pf.open_position (pyOrStr m.id m.condition_id) m.question sig.side
                sig.price st.position_size t).1.status == PositionStatus.OPEN))
            · rfl
            · exact absurd hb hmid
          have hz : List.countP
              (fun p => p.market_id == mid && p.status == PositionStatus.OPEN)
              [(pf.open_position (pyOrStr m.id m.condition_id) m.question sig.side
                sig.price st.position_size t).1] = 0 := by
            simp [List.countP_cons, hmidf]
          rw [hz]
          have := h2 mid
          omega
      · rw [if_neg hact]
        exact ⟨h1, h2⟩

-- ## The invariants hold along every run from the empty ledger

theorem emptyIdsBound : IdsBound Portfolio.empty := by
  intro p hp
  simp [ Portfolio.empty] at hp

theorem emptyUniqueOpen : uniqueOpen Portfolio.empty := by
  intro mid
  simp [ Portfolio.empty]

theorem processAll_inv (st : TradingStrategy) :
    ∀ (steps : List (Market × ℕ)) (pf : Portfolio), IdsBound pf → uniqueOpen pf →
      IdsBound (processAll st pf steps) ∧ uniqueOpen (processAll st pf steps) := by
  intro steps
  induction steps with
  | nil =>
    intro pf h1 h2
    exact ⟨h1, h2⟩
  | cons x rest ih =>
    intro pf h1 h2
    obtain ⟨m, t⟩ := x
    have h := Inv_process st pf m t h1 h2
    exact ih (process_market st pf m t).2 h.1 h.2

/-- Claim C1: along every sequence of process_market calls starting from the empty
ledger, at most one OPEN position exists per market id (the id being the
snapshot's primary id, or the secondary id when the primary is empty). -/
theorem C1_unique_open_per_market (st : TradingStrategy) (steps : List (Market × ℕ)) :
    uniqueOpen (processAll st Portfolio.empty steps) :=
  (processAll_inv st steps Portfolio.empty emptyIdsBound emptyUniqueOpen).2

/-- Claim C6: open_position is total (a non-positive entry price yields 0 shares
instead of an error), returns and inserts a new OPEN position with
shares = size / price when the price is positive, and its id is distinct from the
id of every position already in the ledger; every ledger reachable by the
simulator satisfies the id-generation invariant this freshness relies on. -/
theorem C6_open_position_fresh_id :
    (∀ (pf : Portfolio) (market_id market_title side : String) (entry_price size_usd : ℚ)
        (now : ℕ), IdsBound pf →
      (pf.open_position market_id market_title side entry_price size_usd now).1.status
          = PositionStatus.OPEN ∧
      (pf.open_position market_id market_title side entry_price size_usd now).1.result
          = TradeResult.PENDING ∧
      (pf.open_position market_id market_title side entry_price size_usd now).1.shares
          = (if entry_price > 0 then size_usd / entry_price else 0) ∧
      (pf.open_position market_id market_title side entry_price size_usd now).1
          ∈ (pf.open_position market_id market_title side entry_price size_usd now).2.positions ∧
      (∀ q ∈ pf.positions,
        q.id ≠ (pf.open_position market_id market_title side entry_price size_usd now).1.id)) ∧
    (∀ (st : TradingStrategy) (steps : List (Market × ℕ)),
      IdsBound (processAll st Portfolio.empty steps)) := by
  constructor
  · intro pf market_id market_title side entry_price size_usd now h
    obtain ⟨hps, hfr, -⟩ := open_position_fresh pf market_id market_title side entry_price
      size_usd now h
    refine ⟨rfl, rfl, rfl, ?_, hfr⟩
    rw [hps]
    exact List.mem_append_right _ (List.mem_singleton_self _)
  · intro st steps
    exact (processAll_inv st steps Portfolio.empty emptyIdsBound emptyUniqueOpen).1

/-- Witness for C6: opening at price 0.82 with 100 dollars on the empty ledger
yields an OPEN position pos_0001 with shares = 100 / 0.82 = 5000/41. -/
theorem C6_open_position_fresh_id_witness :
    ( Portfolio.empty.open_position ("m1") ("Q") ("YES") (41/50) 100 0).1.shares
        = 100 / (41/50) ∧
    (100 / (41/50) : ℚ) = 5000/41 ∧
    ( Portfolio.empty.open_position ("m1") ("Q") ("YES") (41/50) 100 0).1.id = "pos_0001" ∧
    ( Portfolio.empty.open_position ("m1") ("Q") ("YES") (41/50) 100 0).1.status
        = PositionStatus.OPEN := by
  obtain ⟨h1, h2, h3, h4, h5⟩ := (C6_open_position_fresh_id).1 Portfolio.empty ("m1") ("Q")
    ("YES") (41/50) 100 0 emptyIdsBound
  refine ⟨?_, by norm_num, ?_, h1⟩
  · rw [h3, if_pos (by norm_num)]
  · show formatId 1 = "pos_0001"
    decide
